import Mathlib

/-!
Verification of the rigamajig2 component lifecycle state machine
(`scripts/rigamajig2/maya/cmpts/base.py`) and the archetype script
resolution algorithm (`scripts/rigamajig2/maya/builder/core.py`).

The Python source is shallowly embedded: path predicates from
`scripts/rigamajig2/shared/path.py` become pure string functions, the
filesystem and rig-file contents become an explicit `World` record, the
Maya scene state a component mutates becomes an explicit `Component`
record, and fallible code returns `Except`.
-/

namespace Rigamajig2

/-! ## Path utilities (from `shared/path.py` and `os.path`) -/

/-- Whether the first character of `s` is `c`. -/
def startsWithChar (s : String) (c : Char) : Bool :=
  match s.toList with
  | [] => false
  | a :: _ => a = c

/-- Whether the last character of `s` is `c`. -/
def endsWithChar (s : String) (c : Char) : Bool :=
  s.toList.getLast? = some c

/-- Last path component of `p` (text after the final slash), as
`os.path.basename` computes it for slash-separated paths. -/
def basenameOf (p : String) : String :=
  String.mk ((p.toList.reverse.takeWhile (fun ch => ch ≠ '/')).reverse)

/-- Extension of a basename given as a character list, following
`os.path.splitext`: the extension starts at the last dot, except that a
run of leading dots never starts an extension. -/
def extOfChars (cs : List Char) : List Char :=
  match ((List.range cs.length).filter (fun i => cs.getD i ' ' = '.')).getLast? with
  | none => []
  | some i => if (cs.take i).any (fun ch => ch ≠ '.') then cs.drop i else []

/-- Extension (with dot) of the path `p`, as `os.path.splitext` returns it. -/
def extOf (p : String) : String :=
  String.mk (extOfChars (basenameOf p).toList)

/-- `rig_path.isFile`: a path is a "file" iff `os.path.splitext` finds a
nonempty extension; the empty (falsy) path is neither file nor dir. -/
def isFile (p : String) : Bool :=
  if p = "" then false else extOf p ≠ ""

/-- `rig_path.isDir`: a path is a "dir" iff its extension is empty; the
empty (falsy) path is neither file nor dir. -/
def isDir (p : String) : Bool :=
  if p = "" then false else extOf p = ""

/-- `os.path.join a b` for a relative second argument: drops an empty
first part, avoids doubling a trailing slash. -/
def pathJoin (a b : String) : String :=
  if a = "" then b
  else if endsWithChar a '/' then a ++ b
  else a ++ "/" ++ b

/-- `os.sep.join [a, b]`: unconditional single-separator join. -/
def sepJoin (a b : String) : String :=
  a ++ "/" ++ b

/-- `os.path.abspath (os.path.join p "../")` for an absolute, normalized,
non-root `p`: the parent directory of `p`. -/
def parentDir (p : String) : String :=
  match (p.toList.reverse.dropWhile (fun ch => ch ≠ '/')) with
  | [] => ""
  | _ :: rest => String.mk rest.reverse

/-! ## The world: filesystem listings and parsed rig files -/

/-- A value stored under a key of a rig definition file: either a string
(for example the base-archetype name) or a list of path strings (the
script-phase keys). -/
inductive RigValue where
  | strV : String → RigValue
  | listV : List String → RigValue
deriving DecidableEq, Repr

/-- Errors the embedded builder code can raise. -/
inductive BErr where
  /-- `RuntimeError` from `getRigData` when the rig file does not exist. -/
  | missingRigFile : String → BErr
  /-- `TypeError` from iterating `None` when a rig file lacks the script key. -/
  | noneNotIterable : BErr
  /-- `RuntimeError` from `newRigEnviornmentFromArchetype` on an unknown archetype. -/
  | invalidArchetype : String → BErr
  /-- `TypeError` from `os.rename` when `findRigFile` returned `False`. -/
  | renameOfFalse : BErr
  /-- Modelled from the spec: the external data-access collaborator failed to read. -/
  | dataReadError : String → BErr
  /-- `KeyError` on a missing script-phase key in the copied rig data. -/
  | keyError : String → BErr
  /-- `IndexError` on an empty script-path list in the copied rig data. -/
  | indexError : String → BErr
  /-- Fuel exhausted: models non-termination of the unguarded recursion. -/
  | fuelExhausted : BErr
deriving DecidableEq, Repr

/-- The read-only environment the script-resolution code runs against:
directory listings, parsed rig-file contents, and the contents of script
directories. -/
structure World where
  /-- `os.listdir`: the entries of a directory, in listing order; a path
  that is not a listable directory maps to `[]`. -/
  listing : String → List String
  /-- Modelled from the spec: the external data-access collaborator
  (`rigamajig2.maya.data.abstract_data.AbstractData`, not under src/)
  reads a rig definition file into a key-value document. `none` means the
  file does not exist or cannot be read. -/
  fileData : String → Option (String → Option RigValue)
  /-- Modelled from the spec: `rigamajig2.shared.runScript.findScripts`
  (not under src/) expands a directory to every script file it directly
  contains, in directory-listing order; a missing directory yields no
  scripts. -/
  scriptFilesIn : String → List String
  /-- `common.ARCHETYPES_PATH`: root directory holding the archetypes. -/
  archetypesPath : String

/-- Modelled from the spec: `constants.PRE_SCRIPT` (module
`rigamajig2.maya.builder.constants`, not under src/), the rig-file key
holding the pre-build script paths. The source docstring names the
typical values `pre_script`, `post_script` and `pub_script`. -/
def PRE_SCRIPT : String := "pre_script"

/-- Modelled from the spec: `constants.POST_SCRIPT`. -/
def POST_SCRIPT : String := "post_script"

/-- Modelled from the spec: `constants.PUB_SCRIPT`. -/
def PUB_SCRIPT : String := "pub_script"

/-- Modelled from the spec: `constants.BASE_ARCHETYPE`, the rig-file key
naming the base archetype the rig inherits from. -/
def BASE_ARCHETYPE : String := "archetype_parent"

/-- Modelled from the spec: `constants.RIG_NAME`, the rig-file key
holding the rig's name. -/
def RIG_NAME : String := "rig_name"

/-- `core.getRigData`: `None` for a falsy rig file, an error if the file
does not exist, otherwise the value stored under `key` (or `None`). -/
def getRigData (w : World) (rigFile : String) (key : String) :
    Except BErr (Option RigValue) :=
  if rigFile = "" then .ok none
  else
    match w.fileData rigFile with
    | none => .error (.missingRigFile rigFile)
    | some d => .ok (d key)

/-- `core.validateScriptList` applied to the single path `item`
(`common.toList` wraps it into a one-element list; modelled from the
spec, `toList` is not under src/): a falsy item contributes nothing, a
path with an extension is kept as-is, a path without an extension is
expanded to the script files it contains. -/
def validateScriptList (w : World) (item : String) : List String :=
  if item = "" then []
  else
    (if isFile item then [item] else []) ++
    (if isDir item then w.scriptFilesIn item else [])

/-- The directory entry `core.findRigFile` picks inside `path`: the first
non-hidden entry whose extension is `.rig`, given `entries` as the
directory listing of `path`. Factored out so that the copied tree of
`createRigEnviornment` can be searched with the source tree's listing. -/
def findRigEntry (entries : List String) (path : String) : Option String :=
  if isFile path then none
  else
    entries.findSome? (fun f =>
      if startsWithChar f (Char.ofNat 46) then none
      else if ¬ isDir path then none
      else if extOf (pathJoin path f) ≠ ".rig" then none
      else some f)

/-- `core.findRigFile`: the first `.rig` file inside `path`, or `none`
(the source returns `False`). -/
def findRigFile (w : World) (path : String) : Option String :=
  (findRigEntry (w.listing path) path).map (pathJoin path)

/-- `core.getAvailableArchetypes`: the non-hidden entries of the
archetypes directory that contain a rig file, in listing order. -/
def getAvailableArchetypes (w : World) : List String :=
  (w.listing w.archetypesPath).filter
    (fun a => ¬ startsWithChar a (Char.ofNat 46) ∧ (findRigFile w (pathJoin w.archetypesPath a)).isSome)

/-- Iterating a rig-data value as Python's `for` does: a list yields its
elements, a string yields its characters as one-character strings. -/
def iterPaths : RigValue → List String
  | .listV xs => xs
  | .strV s => s.toList.map (fun ch => String.mk [ch])

/-- The scripts one level of `GetCompleteScriptList.findScripts`
contributes: each declared path, joined to the rig environment root and
expanded by `validateScriptList`, in declaration order. -/
def localLevelScripts (w : World) (rigFile : String) (paths : List String) : List String :=
  paths.foldl (fun acc p => acc ++ validateScriptList w (pathJoin (parentDir rigFile) p)) []

/-- `GetCompleteScriptList.findScripts`, with explicit fuel standing in
for the source's unguarded recursion over the base-archetype chain:
append this level's scripts, then recurse into the base archetype when it
names a discoverable one. Returns the accumulated (not yet reversed)
script list. -/
def findScriptsAux (w : World) : Nat → String → String → Except BErr (List String)
  | 0, _, _ => .error .fuelExhausted
  | fuel + 1, rigFile, scriptType =>
    match getRigData w rigFile scriptType with
    | .error e => .error e
    | .ok none => .error .noneNotIterable
    | .ok (some v) =>
      let localScripts := localLevelScripts w rigFile (iterPaths v)
      match getRigData w rigFile BASE_ARCHETYPE with
      | .error e => .error e
      | .ok baseOpt =>
        match baseOpt with
        | some (.strV b) =>
          if b ≠ "" ∧ b ∈ getAvailableArchetypes w then
            match findRigFile w (sepJoin w.archetypesPath b) with
            | some arf =>
              match findScriptsAux w fuel arf scriptType with
              | .error e => .error e
              | .ok rest => .ok (localScripts ++ rest)
            | none => .ok localScripts
          else .ok localScripts
        | _ => .ok localScripts

/-- `GetCompleteScriptList.getScriptList` (the spec's `resolveScripts`):
accumulate scripts along the archetype chain, then return the flat list
reversed. -/
def getScriptList (w : World) (fuel : Nat) (rigFile : String) (scriptType : String) :
    Except BErr (List String) :=
  (findScriptsAux w fuel rigFile scriptType).map List.reverse

/-! ## Rig environment creation (from `builder/core.py`) -/

/-- A filesystem mutation performed while creating a rig environment. -/
inductive FsOp where
  /-- `shutil.copytree src dst`. -/
  | copyTree : String → String → FsOp
  /-- `os.rename src dst`. -/
  | renameFile : String → String → FsOp
  /-- The data collaborator writing a rig file. -/
  | writeData : String → FsOp
  /-- `os.remove path`. -/
  | removeFile : String → FsOp
deriving DecidableEq, Repr

/-- `core.createRigEnviornment`: copy the source environment into
`targetEnviornment/rigName`, rename its rig file to `rigName.rig`, and
rewrite the rig name inside it. Returns the mutations performed in order
together with either an error or the new rig-file path paired with its
post-write contents. The copied tree is searched and read through the
source tree's listing and data, which the copy preserves. -/
def createRigEnviornment (w : World) (sourceEnviornment targetEnviornment rigName : String) :
    List FsOp × Except BErr (String × (String → Option RigValue)) :=
  let tgtEnvPath := pathJoin targetEnviornment rigName
  let copyOps := [FsOp.copyTree sourceEnviornment tgtEnvPath]
  match findRigEntry (w.listing sourceEnviornment) tgtEnvPath with
  | none => (copyOps, .error .renameOfFalse)
  | some entry =>
    let srcRigFile := pathJoin tgtEnvPath entry
    let rigFile := pathJoin tgtEnvPath (rigName ++ ".rig")
    match w.fileData (pathJoin sourceEnviornment entry) with
    | none => (copyOps ++ [FsOp.renameFile srcRigFile rigFile],
               .error (.dataReadError rigFile))
    | some d =>
      let newData := fun k => if k = RIG_NAME then some (.strV rigName) else d k
      (copyOps ++ [FsOp.renameFile srcRigFile rigFile, FsOp.writeData rigFile],
       .ok (rigFile, newData))

/-- One pass of the script-folder cleanup loop of
`newRigEnviornmentFromArchetype`: look up the first declared path of
`scriptType` in the copied rig data and remove every file `glob` finds
inside it. `origDir` recovers the copied directory's listing from the
archetype it was copied from. -/
def removeScriptFolderContents (w : World) (newEnv rigName archetypePath : String)
    (d : String → Option RigValue) (scriptType : String) :
    Except BErr (List FsOp) :=
  match d scriptType with
  | none => .error (.keyError scriptType)
  | some v =>
    match iterPaths v with
    | [] => .error (.indexError scriptType)
    | rel :: _ =>
      let path := sepJoin (sepJoin newEnv rigName) rel
      let entries := (w.listing (pathJoin archetypePath rel)).filter
        (fun f => ¬ startsWithChar f (Char.ofNat 46))
      .ok (entries.map (fun f => FsOp.removeFile (pathJoin path f)))

/-- `core.newRigEnviornmentFromArchetype`: raise on an archetype name
that is not discoverable, before performing any filesystem mutation;
otherwise copy the archetype environment, record the base archetype in
the new rig file, and empty the copied script folders. Returns the
mutations performed in order, paired with the error raised (if any). -/
def newRigEnviornmentFromArchetype (w : World) (newEnv archetype rigName : String) :
    List FsOp × Option BErr :=
  if archetype ∉ getAvailableArchetypes w then
    ([], some (.invalidArchetype archetype))
  else
    let archetypePath := pathJoin w.archetypesPath archetype
    match createRigEnviornment w archetypePath newEnv rigName with
    | (ops, .error e) => (ops, some e)
    | (ops, .ok (rigFile, d)) =>
      let d2 := fun k => if k = BASE_ARCHETYPE then some (.strV archetype) else d k
      let ops2 := ops ++ [FsOp.writeData rigFile]
      match removeScriptFolderContents w newEnv rigName archetypePath d2 PRE_SCRIPT with
      | .error e => (ops2, some e)
      | .ok pre =>
        match removeScriptFolderContents w newEnv rigName archetypePath d2 POST_SCRIPT with
        | .error e => (ops2 ++ pre, some e)
        | .ok post =>
          match removeScriptFolderContents w newEnv rigName archetypePath d2 PUB_SCRIPT with
          | .error e => (ops2 ++ pre ++ post, some e)
          | .ok pub => (ops2 ++ pre ++ post ++ pub, none)

/-! ## Component lifecycle state machine (from `cmpts/base.py`) -/

/-- The overridable phase hooks of `Base`, in the order the phase
transitions invoke them. -/
inductive Hook where
  | setInitalData | createJoints | createBuildGuides
  | initialHierarchy | preRigSetup | rigSetup | postRigSetup | setupAnimAttrs
  | initConnect | connect | postConnect
  | publishNodes | publishAttributes | finalize | setAttrs
  | optimize
deriving DecidableEq, Repr

/-- A Python value as the component code stores it: parameter values are
booleans, numbers, strings or lists of strings, and
`_componentParameters` wraps each value together with its data type. -/
inductive Value where
  | boolV : Bool → Value
  | natV : Nat → Value
  | strV : String → Value
  | listV : List String → Value
  /-- The per-parameter dict `_componentParameters` stores: value and data type. -/
  | paramV : Value → String → Value
deriving DecidableEq, Repr

/-- Python truthiness of a stored value; the parameter dict is a
nonempty dict and hence truthy. -/
def truthy : Value → Bool
  | .boolV b => b
  | .natV n => n ≠ 0
  | .strV s => s ≠ ""
  | .listV xs => ¬ xs.isEmpty
  | .paramV _ _ => true

/-- Lookup in an ordered key-value list (a Python dict's view). -/
def alookup : List (String × Value) → String → Option Value
  | [], _ => none
  | (k, v) :: rest, key => if k = key then some v else alookup rest key

/-- Dict-style update: replace the first binding of `key` in place, or
append a new binding at the end. -/
def aset : List (String × Value) → String → Value → List (String × Value)
  | [], key, v => [(key, v)]
  | (k, w) :: rest, key, v =>
    if k = key then (key, v) :: rest else (k, w) :: aset rest key v

/-- The observable state of one `Base` component: its container name, the
`self.enabled` attribute (a Python value, read through truthiness by the
gates), the persisted `build_step` enum attribute on the container
(`none` when the attribute has never been created), the remaining data
stored on the container by `defineParameter`/`loadSettings`, the
in-memory `_componentParameters` dict, the other instance attributes, and
the trace of phase hooks invoked so far. -/
structure Component where
  container : String
  enabled : Value
  buildStep : Option Nat
  containerData : List (String × Value)
  componentParameters : List (String × Value)
  instanceAttrs : List (String × Value)
  trace : List Hook
deriving DecidableEq, Repr

/-- Step constants from `base.py` (source spelling kept). -/
def UNBUILT_STEP : Nat := 0

/-- Target step of the initialize phase. -/
def INTIALIZE_STEP : Nat := 1

/-- Target step of the guide phase. -/
def GUIDE_STEP : Nat := 2

/-- Target step of the build phase. -/
def BUILD_STEP : Nat := 3

/-- Target step of the connect phase. -/
def CONNECT_STEP : Nat := 4

/-- Target step of the finalize phase. -/
def FINALIZE_STEP : Nat := 5

/-- Target step of the optimize phase. -/
def OPTIMIZE_STEP : Nat := 6

/-- `Base.getStep`: the persisted step, or 0 when the container is falsy
or the `build_step` attribute does not exist. -/
def getStep (c : Component) : Nat :=
  if c.container ≠ "" ∧ c.buildStep.isSome then c.buildStep.getD 0 else 0

/-- `Base.setStep`: create the `build_step` attribute if needed and set
it. -/
def setStep (c : Component) (step : Nat) : Component :=
  { c with buildStep := some step }

/-- Invoking a phase hook records it on the trace. -/
def invoke (c : Component) (h : Hook) : Component :=
  { c with trace := c.trace ++ [h] }

/-- `setattr(self, k, v)`: the `enabled` attribute is the field the
phase gates read; every other attribute lands in `instanceAttrs`. -/
def setSelfAttr (c : Component) (k : String) (v : Value) : Component :=
  if k = "enabled" then { c with enabled := v }
  else { c with instanceAttrs := aset c.instanceAttrs k v }

/-- `Base._loadComponentParametersToClass`: for each key of
`_componentParameters`, read the container's data (falling back to
`_componentParameters` itself when the container data is empty) and, when
the key is present, set the instance attribute and collect the new value;
finally update `_componentParameters` with the collected values. -/
def loadComponentParametersToClass (c : Component) : Component :=
  let data := if c.containerData.isEmpty then c.componentParameters else c.containerData
  let pairs := (c.componentParameters.map Prod.fst).filterMap
    (fun k => (alookup data k).map (fun v => (k, v)))
  let c2 := pairs.foldl (fun acc kv => setSelfAttr acc kv.1 kv.2) c
  { c2 with
    componentParameters := pairs.foldl (fun ps kv => aset ps kv.1 kv.2) c2.componentParameters }

/-- `Base._initalizeComponent` (source spelling kept): gated on
step < 1 and `self.enabled`. -/
def initalizeComponent (c : Component) : Component :=
  if getStep c < INTIALIZE_STEP ∧ truthy c.enabled then
    setStep (invoke c .setInitalData) 1
  else c

/-- `Base._guideComponent`: loads parameters unconditionally, then gated
on step < 2 and `self.enabled` invokes `createJoints` and
`createBuildGuides` and sets step 2. -/
def guideComponent (c : Component) : Component :=
  let c' := loadComponentParametersToClass c
  if getStep c' < GUIDE_STEP ∧ truthy c'.enabled then
    setStep (invoke (invoke c' .createJoints) .createBuildGuides) 2
  else c'

/-- `Base._buildComponent`: loads parameters unconditionally, then gated
on step < 3 and `self.enabled` invokes the five build hooks and sets
step 3. -/
def buildComponent (c : Component) : Component :=
  let c' := loadComponentParametersToClass c
  if getStep c' < BUILD_STEP ∧ truthy c'.enabled then
    setStep (invoke (invoke (invoke (invoke (invoke c'
      .initialHierarchy) .preRigSetup) .rigSetup) .postRigSetup) .setupAnimAttrs) 3
  else c'

/-- `Base._connectComponent`: loads parameters unconditionally, then
gated on step < 4 and `self.enabled` invokes the three connect hooks and
sets step 4. -/
def connectComponent (c : Component) : Component :=
  let c' := loadComponentParametersToClass c
  if getStep c' < CONNECT_STEP ∧ truthy c'.enabled then
    setStep (invoke (invoke (invoke c' .initConnect) .connect) .postConnect) 4
  else c'

/-- `Base._finalizeComponent`: no parameter load; gated on step < 5 and
`self.enabled` invokes the four finalize hooks and sets step 5. (The
conditional `meta.tag` call is a scene-metadata write, not a phase
hook.) -/
def finalizeComponent (c : Component) : Component :=
  if getStep c < FINALIZE_STEP ∧ truthy c.enabled then
    setStep (invoke (invoke (invoke (invoke c
      .publishNodes) .publishAttributes) .finalize) .setAttrs) 5
  else c

/-- `Base._optimizeComponent`: gated only on step ≠ 6 — no enabled
check — invokes `optimize` and sets step 6. -/
def optimizeComponent (c : Component) : Component :=
  if getStep c ≠ OPTIMIZE_STEP then
    setStep (invoke c .optimize) 6
  else c

/-- `Base.testBuild` (the spec's `runFullLifecycle`): the six phase
transitions in order. -/
def testBuild (c : Component) : Component :=
  optimizeComponent (finalizeComponent (connectComponent (buildComponent
    (guideComponent (initalizeComponent c)))))

/-- The six phase transitions, as data. -/
inductive Phase where
  | initalize | guide | build | connect | finalize | optimize
deriving DecidableEq, Repr

/-- The persisted step a phase advances to. -/
def targetStep : Phase → Nat
  | .initalize => INTIALIZE_STEP
  | .guide => GUIDE_STEP
  | .build => BUILD_STEP
  | .connect => CONNECT_STEP
  | .finalize => FINALIZE_STEP
  | .optimize => OPTIMIZE_STEP

/-- Dispatch a phase transition. -/
def applyPhase : Phase → Component → Component
  | .initalize => initalizeComponent
  | .guide => guideComponent
  | .build => buildComponent
  | .connect => connectComponent
  | .finalize => finalizeComponent
  | .optimize => optimizeComponent

/-- Apply a sequence of phase transitions in order. -/
def applyPhases (ts : List Phase) (c : Component) : Component :=
  ts.foldl (fun acc t => applyPhase t acc) c

/-! ## Concrete instances -/

/-- Rig data of the scenario's requested rig file: one pre-script
directory and the base archetype `biped`. -/
def theRigData (k : String) : Option RigValue :=
  if k = PRE_SCRIPT then some (.listV ["scripts/pre"])
  else if k = BASE_ARCHETYPE then some (.strV "biped")
  else none

/-- Rig data of the `biped` archetype: one directory per script phase,
no base archetype. -/
def bipedData (k : String) : Option RigValue :=
  if k = PRE_SCRIPT then some (.listV ["common/pre"])
  else if k = POST_SCRIPT then some (.listV ["common/post"])
  else if k = PUB_SCRIPT then some (.listV ["common/pub"])
  else none

/-- Rig data of a rig whose declared base archetype `dragon` is not
discoverable. -/
def orphanRigData (k : String) : Option RigValue :=
  if k = PRE_SCRIPT then some (.listV ["scripts/pre"])
  else if k = BASE_ARCHETYPE then some (.strV "dragon")
  else none

/-- Rig data of a rig declaring an empty script list for the pre phase,
inheriting from `biped`. -/
def emptyRigData (k : String) : Option RigValue :=
  if k = PRE_SCRIPT then some (.listV [])
  else if k = BASE_ARCHETYPE then some (.strV "biped")
  else none

/-- The concrete world of the spec's scenario: a rig environment at
`/env` whose `scripts/pre` holds `a.py` and `b.py`, and a `biped`
archetype whose `common/pre` holds `z.py`; two further rig files exercise
an unknown base archetype and an empty script level. -/
def scenarioWorld : World where
  listing p :=
    if p = "/archetypes" then ["biped"]
    else if p = "/archetypes/biped" then ["biped.rig", "common"]
    else if p = "/archetypes/biped/common/pre" then ["z.py"]
    else []
  fileData p :=
    if p = "/env/theRig.rig" then some theRigData
    else if p = "/env/orphanRig.rig" then some orphanRigData
    else if p = "/env/emptyRig.rig" then some emptyRigData
    else if p = "/archetypes/biped/biped.rig" then some bipedData
    else none
  scriptFilesIn p :=
    if p = "/env/scripts/pre" then ["/env/scripts/pre/a.py", "/env/scripts/pre/b.py"]
    else if p = "/archetypes/biped/common/pre" then ["/archetypes/biped/common/pre/z.py"]
    else []
  archetypesPath := "/archetypes"

/-- Rig data of the most-derived rig of a three-level chain: its own
pre-script directory plus the base archetype `quadruped`. -/
def dogRigData (k : String) : Option RigValue :=
  if k = PRE_SCRIPT then some (.listV ["pre"])
  else if k = BASE_ARCHETYPE then some (.strV "quadruped")
  else none

/-- Rig data of the middle archetype `quadruped`, based on `biped`. -/
def quadrupedData (k : String) : Option RigValue :=
  if k = PRE_SCRIPT then some (.listV ["pre"])
  else if k = BASE_ARCHETYPE then some (.strV "biped")
  else none

/-- Rig data of the root archetype of the chain (no base). -/
def bipedRootData (k : String) : Option RigValue :=
  if k = PRE_SCRIPT then some (.listV ["pre"])
  else none

/-- A world with a three-level archetype chain
biped (A) ← quadruped (B) ← dog rig (C); C's pre-script directory holds
two scripts, the others one each. -/
def chainWorld : World where
  listing p :=
    if p = "/archetypes" then ["biped", "quadruped"]
    else if p = "/archetypes/biped" then ["biped.rig", "pre"]
    else if p = "/archetypes/quadruped" then ["quadruped.rig", "pre"]
    else []
  fileData p :=
    if p = "/rigs/dog.rig" then some dogRigData
    else if p = "/archetypes/quadruped/quadruped.rig" then some quadrupedData
    else if p = "/archetypes/biped/biped.rig" then some bipedRootData
    else none
  scriptFilesIn p :=
    if p = "/rigs/pre" then ["/rigs/pre/c1.py", "/rigs/pre/c2.py"]
    else if p = "/archetypes/quadruped/pre" then ["/archetypes/quadruped/pre/b1.py"]
    else if p = "/archetypes/biped/pre" then ["/archetypes/biped/pre/a1.py"]
    else []
  archetypesPath := "/archetypes"

instance {ε α : Type} [DecidableEq ε] [DecidableEq α] : DecidableEq (Except ε α) :=
  fun x y =>
    match x, y with
    | .ok a, .ok b =>
      if h : a = b then isTrue (by rw [h])
      else isFalse (fun hh => h (Except.ok.inj hh))
    | .error a, .error b =>
      if h : a = b then isTrue (by rw [h])
      else isFalse (fun hh => h (Except.error.inj hh))
    | .ok _, .error _ => isFalse (fun hh => Except.noConfusion hh)
    | .error _, .ok _ => isFalse (fun hh => Except.noConfusion hh)

/-- The `_componentParameters` dict of a freshly constructed enabled
component named `arm`, as the seven `defineParameter` calls of
`Base.__init__` leave it. -/
def freshParams : List (String × Value) :=
  [("name", .paramV (.strV "arm") "string"),
   ("type", .paramV (.strV "base") "type"),
   ("input", .paramV (.listV ["joint1"]) "list"),
   ("enabled", .paramV (.boolV true) "bool"),
   ("size", .paramV (.natV 1) "int"),
   ("rigParent", .paramV (.strV "") "string"),
   ("componentTag", .paramV (.strV "") "string")]

/-- The container data the same seven `defineParameter` calls persist. -/
def freshContainerData : List (String × Value) :=
  [("name", .strV "arm"),
   ("type", .strV "base"),
   ("input", .listV ["joint1"]),
   ("enabled", .boolV true),
   ("size", .natV 1),
   ("rigParent", .strV ""),
   ("componentTag", .strV "")]

/-- A freshly constructed enabled component: persisted step attribute not
yet created, no hooks invoked. -/
def freshCmpt : Component where
  container := "arm_container"
  enabled := .boolV true
  buildStep := none
  containerData := freshContainerData
  componentParameters := freshParams
  instanceAttrs :=
    [("name", .strV "arm"), ("input", .listV ["joint1"]), ("size", .natV 1),
     ("rigParent", .strV ""), ("componentTag", .strV "")]
  trace := []

/-- A freshly constructed component with `enabled = False`, both on the
instance and in the persisted container data. -/
def disabledCmpt : Component :=
  { freshCmpt with
    enabled := .boolV false
    containerData := aset freshContainerData "enabled" (.boolV false) }

/-- A component at persisted step 2 whose persisted `size` parameter (5)
disagrees with its in-memory instance attribute (1), as happens after
`loadSettings` writes edited settings onto the container. -/
def staleCmpt : Component where
  container := "arm_container"
  enabled := .boolV true
  buildStep := some 2
  containerData := aset freshContainerData "size" (.natV 5)
  componentParameters := freshParams
  instanceAttrs :=
    [("name", .strV "arm"), ("input", .listV ["joint1"]), ("size", .natV 1),
     ("rigParent", .strV ""), ("componentTag", .strV "")]
  trace := []

/-! ## Lemmas about the parameter-load routine -/

theorem setSelfAttr_fields (c : Component) (k : String) (v : Value) :
    (setSelfAttr c k v).buildStep = c.buildStep ∧
    (setSelfAttr c k v).container = c.container ∧
    (setSelfAttr c k v).containerData = c.containerData ∧
    (setSelfAttr c k v).trace = c.trace ∧
    (setSelfAttr c k v).componentParameters = c.componentParameters := by
  unfold setSelfAttr
  split <;> exact ⟨rfl, rfl, rfl, rfl, rfl⟩

theorem foldl_setSelfAttr_fields (ps : List (String × Value)) (c : Component) :
    (ps.foldl (fun acc kv => setSelfAttr acc kv.1 kv.2) c).buildStep = c.buildStep ∧
    (ps.foldl (fun acc kv => setSelfAttr acc kv.1 kv.2) c).container = c.container ∧
    (ps.foldl (fun acc kv => setSelfAttr acc kv.1 kv.2) c).containerData = c.containerData ∧
    (ps.foldl (fun acc kv => setSelfAttr acc kv.1 kv.2) c).trace = c.trace := by
  induction ps generalizing c with
  | nil => exact ⟨rfl, rfl, rfl, rfl⟩
  | cons kv ps ih =>
    obtain ⟨h1, h2, h3, h4⟩ := ih (setSelfAttr c kv.1 kv.2)
    obtain ⟨g1, g2, g3, g4, _⟩ := setSelfAttr_fields c kv.1 kv.2
    exact ⟨h1.trans g1, h2.trans g2, h3.trans g3, h4.trans g4⟩

theorem load_fields (c : Component) :
    (loadComponentParametersToClass c).buildStep = c.buildStep ∧
    (loadComponentParametersToClass c).container = c.container ∧
    (loadComponentParametersToClass c).containerData = c.containerData ∧
    (loadComponentParametersToClass c).trace = c.trace := by
  unfold loadComponentParametersToClass
  exact foldl_setSelfAttr_fields _ c

theorem load_getStep (c : Component) :
    getStep (loadComponentParametersToClass c) = getStep c := by
  obtain ⟨h1, h2, _, _⟩ := load_fields c
  unfold getStep
  rw [h1, h2]

theorem foldl_setSelfAttr_enabled (ps : List (String × Value)) (c : Component) (b : Bool)
    (hb : truthy c.enabled = b)
    (hp : ∀ kv ∈ ps, kv.1 = "enabled" → truthy kv.2 = b) :
    truthy ((ps.foldl (fun acc kv => setSelfAttr acc kv.1 kv.2) c).enabled) = b := by
  induction ps generalizing c with
  | nil => exact hb
  | cons kv ps ih =>
    refine ih (setSelfAttr c kv.1 kv.2) ?_ ?_
    · by_cases hk : kv.1 = "enabled"
      · simpa [setSelfAttr, hk] using hp kv (List.mem_cons_self _ _) hk
      · simpa [setSelfAttr, hk] using hb
    · exact fun kv2 h2 hk2 => hp kv2 (List.mem_cons_of_mem _ h2) hk2

theorem load_enabled (c : Component) (b : Bool)
    (hb : truthy c.enabled = b)
    (hd : ∀ v, alookup (if c.containerData.isEmpty then c.componentParameters
                        else c.containerData) "enabled" = some v → truthy v = b) :
    truthy (loadComponentParametersToClass c).enabled = b := by
  unfold loadComponentParametersToClass
  refine foldl_setSelfAttr_enabled _ c b hb ?_
  intro kv hkv hk
  obtain ⟨k, _, hfk⟩ := List.mem_filterMap.mp hkv
  cases hv : alookup (if c.containerData.isEmpty then c.componentParameters
      else c.containerData) k with
  | none => rw [hv] at hfk; exact absurd hfk (by simp)
  | some v =>
    rw [hv] at hfk
    simp only [Option.map_some'] at hfk
    obtain ⟨hfst, hsnd⟩ := Prod.mk.injEq .. ▸ Option.some.inj hfk
    subst hfst
    rw [hk] at hv
    rw [← hsnd]
    exact hd v hv

theorem alookup_nonempty {l : List (String × Value)} {k : String} {v : Value}
    (h : alookup l k = some v) : l.isEmpty = false := by
  cases l with
  | nil => exact absurd h (by simp [alookup])
  | cons _ _ => rfl

theorem load_enabled_of_containerData (c : Component) (b : Bool) (ev : Value)
    (hb : truthy c.enabled = b)
    (hev : alookup c.containerData "enabled" = some ev)
    (hevb : truthy ev = b) :
    truthy (loadComponentParametersToClass c).enabled = b := by
  refine load_enabled c b hb ?_
  intro v hv
  rw [alookup_nonempty hev] at hv
  simp only [Bool.false_eq_true, if_false] at hv
  rw [hev] at hv
  rw [← Option.some.inj hv]
  exact hevb

/-! ## Phase transition lemmas -/

theorem initalizeComponent_fires (c : Component)
    (hc : c.container ≠ "") (hstep : getStep c < 1) (hb : truthy c.enabled = true) :
    getStep (initalizeComponent c) = 1 ∧
    (initalizeComponent c).trace = c.trace ++ [.setInitalData] ∧
    (initalizeComponent c).container = c.container ∧
    (initalizeComponent c).containerData = c.containerData ∧
    (initalizeComponent c).enabled = c.enabled := by
  unfold initalizeComponent
  rw [if_pos ⟨hstep, hb⟩]
  refine ⟨?_, rfl, rfl, rfl, rfl⟩
  simp [getStep, setStep, invoke, hc]

theorem guideComponent_fires (c : Component) (ev : Value)
    (hc : c.container ≠ "") (hstep : getStep c < 2) (hb : truthy c.enabled = true)
    (hev : alookup c.containerData "enabled" = some ev) (hevt : truthy ev = true) :
    getStep (guideComponent c) = 2 ∧
    (guideComponent c).trace = c.trace ++ [.createJoints, .createBuildGuides] ∧
    (guideComponent c).container = c.container ∧
    (guideComponent c).containerData = c.containerData ∧
    truthy (guideComponent c).enabled = true := by
  have hen := load_enabled_of_containerData c true ev hb hev hevt
  have hgs := load_getStep c
  obtain ⟨hbs, hcn, hcd, htr⟩ := load_fields c
  unfold guideComponent
  rw [if_pos ⟨show getStep (loadComponentParametersToClass c) < 2 from hgs ▸ hstep, hen⟩]
  refine ⟨?_, ?_, ?_, ?_, ?_⟩ <;>
    simp [getStep, setStep, invoke, hcn, hcd, htr, hen, hc]

theorem buildComponent_fires (c : Component) (ev : Value)
    (hc : c.container ≠ "") (hstep : getStep c < 3) (hb : truthy c.enabled = true)
    (hev : alookup c.containerData "enabled" = some ev) (hevt : truthy ev = true) :
    getStep (buildComponent c) = 3 ∧
    (buildComponent c).trace = c.trace ++
      [.initialHierarchy, .preRigSetup, .rigSetup, .postRigSetup, .setupAnimAttrs] ∧
    (buildComponent c).container = c.container ∧
    (buildComponent c).containerData = c.containerData ∧
    truthy (buildComponent c).enabled = true := by
  have hen := load_enabled_of_containerData c true ev hb hev hevt
  have hgs := load_getStep c
  obtain ⟨hbs, hcn, hcd, htr⟩ := load_fields c
  unfold buildComponent
  rw [if_pos ⟨show getStep (loadComponentParametersToClass c) < 3 from hgs ▸ hstep, hen⟩]
  refine ⟨?_, ?_, ?_, ?_, ?_⟩ <;>
    simp [getStep, setStep, invoke, hcn, hcd, htr, hen, hc]

theorem connectComponent_fires (c : Component) (ev : Value)
    (hc : c.container ≠ "") (hstep : getStep c < 4) (hb : truthy c.enabled = true)
    (hev : alookup c.containerData "enabled" = some ev) (hevt : truthy ev = true) :
    getStep (connectComponent c) = 4 ∧
    (connectComponent c).trace = c.trace ++ [.initConnect, .connect, .postConnect] ∧
    (connectComponent c).container = c.container ∧
    (connectComponent c).containerData = c.containerData ∧
    truthy (connectComponent c).enabled = true := by
  have hen := load_enabled_of_containerData c true ev hb hev hevt
  have hgs := load_getStep c
  obtain ⟨hbs, hcn, hcd, htr⟩ := load_fields c
  unfold connectComponent
  rw [if_pos ⟨show getStep (loadComponentParametersToClass c) < 4 from hgs ▸ hstep, hen⟩]
  refine ⟨?_, ?_, ?_, ?_, ?_⟩ <;>
    simp [getStep, setStep, invoke, hcn, hcd, htr, hen, hc]

theorem finalizeComponent_fires (c : Component)
    (hc : c.container ≠ "") (hstep : getStep c < 5) (hb : truthy c.enabled = true) :
    getStep (finalizeComponent c) = 5 ∧
    (finalizeComponent c).trace = c.trace ++
      [.publishNodes, .publishAttributes, .finalize, .setAttrs] ∧
    (finalizeComponent c).container = c.container ∧
    (finalizeComponent c).containerData = c.containerData ∧
    (finalizeComponent c).enabled = c.enabled := by
  unfold finalizeComponent
  rw [if_pos ⟨hstep, hb⟩]
  refine ⟨?_, ?_, rfl, rfl, rfl⟩ <;>
    simp [getStep, setStep, invoke, hc]

theorem optimizeComponent_fires (c : Component)
    (hc : c.container ≠ "") (hstep : getStep c ≠ 6) :
    getStep (optimizeComponent c) = 6 ∧
    (optimizeComponent c).trace = c.trace ++ [.optimize] := by
  unfold optimizeComponent
  rw [if_pos (show getStep c ≠ OPTIMIZE_STEP from hstep)]
  refine ⟨?_, rfl⟩
  simp [getStep, setStep, invoke, hc]

theorem disabledPhaseSkip (c : Component) (ev : Value) (t : Phase)
    (hne : t ≠ Phase.optimize)
    (hb : truthy c.enabled = false)
    (hev : alookup c.containerData "enabled" = some ev) (hevf : truthy ev = false) :
    getStep (applyPhase t c) = getStep c ∧
    truthy (applyPhase t c).enabled = false ∧
    (applyPhase t c).containerData = c.containerData := by
  obtain ⟨hbs, hcn, hcd, htr⟩ := load_fields c
  have hgs := load_getStep c
  have hen := load_enabled_of_containerData c false ev hb hev hevf
  cases t with
  | initalize =>
    simp only [applyPhase, initalizeComponent]
    rw [if_neg (fun hcon => absurd hcon.2 (by simp [hb]))]
    exact ⟨rfl, hb, rfl⟩
  | guide =>
    simp only [applyPhase, guideComponent]
    rw [if_neg (fun hcon => absurd hcon.2 (by simp [hen]))]
    exact ⟨hgs, hen, hcd⟩
  | build =>
    simp only [applyPhase, buildComponent]
    rw [if_neg (fun hcon => absurd hcon.2 (by simp [hen]))]
    exact ⟨hgs, hen, hcd⟩
  | connect =>
    simp only [applyPhase, connectComponent]
    rw [if_neg (fun hcon => absurd hcon.2 (by simp [hen]))]
    exact ⟨hgs, hen, hcd⟩
  | finalize =>
    simp only [applyPhase, finalizeComponent]
    rw [if_neg (fun hcon => absurd hcon.2 (by simp [hb]))]
    exact ⟨rfl, hb, rfl⟩
  | optimize => exact absurd rfl hne

/-! ## Claims about the lifecycle state machine -/

/-- C1, counterexample: the claim that no phase-transition operation ever
advances a disabled component's persisted step past 0 is false — the
optimize transition has no enabled gate, so on a fresh disabled component
(enabled false both on the instance and in the persisted data, step 0) it
advances the persisted step to 6. -/
theorem c1_counterexample :
    truthy disabledCmpt.enabled = false ∧
    alookup disabledCmpt.containerData "enabled" = some (.boolV false) ∧
    getStep disabledCmpt = 0 ∧
    getStep (applyPhase .optimize disabledCmpt) = 6 := by decide

/-- C1, amended: for a component whose enabled flag is false (on the
instance and in the persisted container data), no sequence of the five
enabled-gated phase transitions (initialize, guide, build, connect,
finalize), in any order and any number of invocations, ever advances the
persisted build step past 0; the optimize transition is excluded because
it has no enabled gate. -/
theorem c1_disabled_no_advance (c : Component) (ev : Value)
    (hb : truthy c.enabled = false)
    (hev : alookup c.containerData "enabled" = some ev) (hevf : truthy ev = false)
    (h0 : getStep c = 0)
    (ts : List Phase) (hts : Phase.optimize ∉ ts) :
    getStep (applyPhases ts c) = 0 := by
  induction ts generalizing c with
  | nil => exact h0
  | cons t ts ih =>
    simp only [applyPhases, List.foldl_cons]
    have hni : t ≠ .optimize := fun h => hts (h ▸ List.mem_cons_self _ _)
    obtain ⟨hs, he, hd⟩ := disabledPhaseSkip c ev t hni hb hev hevf
    exact ih (applyPhase t c) he (by rw [hd]; exact hev) (hs.trans h0)
      (fun hm => hts (List.mem_cons_of_mem _ hm))

/-- C1, witness: the amended claim at the fresh disabled component, over
every gated transition invoked twice in mixed order. -/
theorem c1_disabled_no_advance_witness :
    getStep (applyPhases
      [.finalize, .initalize, .guide, .build, .connect,
       .initalize, .guide, .connect, .build, .finalize] disabledCmpt) = 0 :=
  c1_disabled_no_advance disabledCmpt (.boolV false) (by decide) (by decide)
    (by decide) (by decide) _ (by decide)

/-- C3, counterexample: a phase transition whose target step (2, guide) is
equal to the component's current step (2) still mutates the component —
the unconditional parameter load overwrites the instance attribute `size`
from the persisted container data — so the claim that such an invocation
performs no observable mutation is false. -/
theorem c3_counterexample :
    targetStep .guide ≤ getStep staleCmpt ∧
    alookup staleCmpt.instanceAttrs "size" = some (.natV 1) ∧
    alookup (applyPhase .guide staleCmpt).instanceAttrs "size" = some (.natV 5) ∧
    applyPhase .guide staleCmpt ≠ staleCmpt := by decide

/-- C3, amended: for every component at a step of at most 6 and every
phase transition whose target step is at most the current step, the
transition invokes no phase hook and leaves the persisted build step
unchanged; however the guide, build and connect transitions still execute
the parameter-load routine before their gate, so the result is exactly
the loaded component (which may differ in its instance attributes and
parameter cache), while the other three transitions leave the component
untouched. -/
theorem c3_skip_no_hook (c : Component) (t : Phase)
    (h1 : targetStep t ≤ getStep c) (h2 : getStep c ≤ 6) :
    (applyPhase t c).trace = c.trace ∧
    (applyPhase t c).buildStep = c.buildStep ∧
    applyPhase t c =
      (if t = Phase.guide ∨ t = Phase.build ∨ t = Phase.connect
       then loadComponentParametersToClass c else c) := by
  obtain ⟨hbs, hcn, hcd, htr⟩ := load_fields c
  have hgs := load_getStep c
  cases t with
  | initalize =>
    have h1' : 1 ≤ getStep c := h1
    simp only [applyPhase, initalizeComponent]
    rw [if_neg (fun hcon => absurd hcon.1 (by simp only [INTIALIZE_STEP]; omega))]
    exact ⟨rfl, rfl, by rw [if_neg (by simp)]⟩
  | guide =>
    have h1' : 2 ≤ getStep c := h1
    simp only [applyPhase, guideComponent]
    rw [if_neg (fun hcon => absurd hcon.1 (by rw [hgs]; simp only [GUIDE_STEP]; omega))]
    exact ⟨htr, hbs, by rw [if_pos (by simp)]⟩
  | build =>
    have h1' : 3 ≤ getStep c := h1
    simp only [applyPhase, buildComponent]
    rw [if_neg (fun hcon => absurd hcon.1 (by rw [hgs]; simp only [BUILD_STEP]; omega))]
    exact ⟨htr, hbs, by rw [if_pos (by simp)]⟩
  | connect =>
    have h1' : 4 ≤ getStep c := h1
    simp only [applyPhase, connectComponent]
    rw [if_neg (fun hcon => absurd hcon.1 (by rw [hgs]; simp only [CONNECT_STEP]; omega))]
    exact ⟨htr, hbs, by rw [if_pos (by simp)]⟩
  | finalize =>
    have h1' : 5 ≤ getStep c := h1
    simp only [applyPhase, finalizeComponent]
    rw [if_neg (fun hcon => absurd hcon.1 (by simp only [FINALIZE_STEP]; omega))]
    exact ⟨rfl, rfl, by rw [if_neg (by simp)]⟩
  | optimize =>
    have h1' : 6 ≤ getStep c := h1
    have heq : getStep c = 6 := by omega
    simp only [applyPhase, optimizeComponent]
    rw [if_neg (fun hne => hne (show getStep c = OPTIMIZE_STEP from heq))]
    exact ⟨rfl, rfl, by rw [if_neg (by simp)]⟩

/-- C3, witness: the amended claim at a component sitting at step 2, for
the guide transition (load runs, no hook, step unchanged) — evaluated
instances of all three conjuncts. -/
theorem c3_skip_no_hook_witness :
    (applyPhase .guide staleCmpt).trace = staleCmpt.trace ∧
    (applyPhase .guide staleCmpt).buildStep = staleCmpt.buildStep ∧
    applyPhase .guide staleCmpt =
      (if Phase.guide = Phase.guide ∨ Phase.guide = Phase.build ∨
          Phase.guide = Phase.connect
       then loadComponentParametersToClass staleCmpt else staleCmpt) :=
  c3_skip_no_hook staleCmpt .guide (by decide) (by decide)

/-- C5: on a fresh component (persisted step 0, truthy container name,
enabled true on the instance and in the persisted data), `testBuild` —
the six phase transitions in order — drives the persisted step through
exactly 1, 2, 3, 4, 5, 6 and invokes each phase's hooks exactly once, in
phase order. -/
theorem c5_testBuild_fresh (c : Component) (ev : Value)
    (hc : c.container ≠ "") (h0 : getStep c = 0)
    (hb : truthy c.enabled = true)
    (hev : alookup c.containerData "enabled" = some ev) (hevt : truthy ev = true) :
    getStep (initalizeComponent c) = 1 ∧
    getStep (guideComponent (initalizeComponent c)) = 2 ∧
    getStep (buildComponent (guideComponent (initalizeComponent c))) = 3 ∧
    getStep (connectComponent (buildComponent (guideComponent
      (initalizeComponent c)))) = 4 ∧
    getStep (finalizeComponent (connectComponent (buildComponent (guideComponent
      (initalizeComponent c))))) = 5 ∧
    getStep (testBuild c) = 6 ∧
    (testBuild c).trace = c.trace ++
      [.setInitalData, .createJoints, .createBuildGuides,
       .initialHierarchy, .preRigSetup, .rigSetup, .postRigSetup, .setupAnimAttrs,
       .initConnect, .connect, .postConnect,
       .publishNodes, .publishAttributes, .finalize, .setAttrs, .optimize] := by
  obtain ⟨s1, t1, n1, d1, e1⟩ :=
    initalizeComponent_fires c hc (by omega) hb
  have hb1 : truthy (initalizeComponent c).enabled = true := by rw [e1]; exact hb
  obtain ⟨s2, t2, n2, d2, hb2⟩ :=
    guideComponent_fires (initalizeComponent c) ev
      (by rw [n1]; exact hc) (by omega) hb1 (by rw [d1]; exact hev) hevt
  obtain ⟨s3, t3, n3, d3, hb3⟩ :=
    buildComponent_fires (guideComponent (initalizeComponent c)) ev
      (by rw [n2, n1]; exact hc) (by omega) hb2 (by rw [d2, d1]; exact hev) hevt
  obtain ⟨s4, t4, n4, d4, hb4⟩ :=
    connectComponent_fires (buildComponent (guideComponent (initalizeComponent c))) ev
      (by rw [n3, n2, n1]; exact hc) (by omega) hb3 (by rw [d3, d2, d1]; exact hev) hevt
  obtain ⟨s5, t5, n5, d5, e5⟩ :=
    finalizeComponent_fires
      (connectComponent (buildComponent (guideComponent (initalizeComponent c))))
      (by rw [n4, n3, n2, n1]; exact hc) (by omega) hb4
  obtain ⟨s6, t6⟩ :=
    optimizeComponent_fires
      (finalizeComponent (connectComponent (buildComponent (guideComponent
        (initalizeComponent c)))))
      (by rw [n5, n4, n3, n2, n1]; exact hc) (by omega)
  refine ⟨s1, s2, s3, s4, s5, s6, ?_⟩
  show (optimizeComponent (finalizeComponent (connectComponent (buildComponent
    (guideComponent (initalizeComponent c)))))).trace = _
  rw [t6, t5, t4, t3, t2, t1]
  simp

/-- C5, witness: the fresh component runs the full lifecycle through
steps 1..6 with each hook invoked exactly once. -/
theorem c5_testBuild_fresh_witness :
    getStep (initalizeComponent freshCmpt) = 1 ∧
    getStep (guideComponent (initalizeComponent freshCmpt)) = 2 ∧
    getStep (buildComponent (guideComponent (initalizeComponent freshCmpt))) = 3 ∧
    getStep (connectComponent (buildComponent (guideComponent
      (initalizeComponent freshCmpt)))) = 4 ∧
    getStep (finalizeComponent (connectComponent (buildComponent (guideComponent
      (initalizeComponent freshCmpt))))) = 5 ∧
    getStep (testBuild freshCmpt) = 6 ∧
    (testBuild freshCmpt).trace = freshCmpt.trace ++
      [.setInitalData, .createJoints, .createBuildGuides,
       .initialHierarchy, .preRigSetup, .rigSetup, .postRigSetup, .setupAnimAttrs,
       .initConnect, .connect, .postConnect,
       .publishNodes, .publishAttributes, .finalize, .setAttrs, .optimize] :=
  c5_testBuild_fresh freshCmpt (.boolV true) (by decide) (by decide) (by decide)
    (by decide) (by decide)

/-- C8: the optimize transition invokes its hook and sets the persisted
step to 6 exactly when the current step differs from 6 — an inequality
gate with no enabled check, since the statement holds for every
component, enabled or not — and when the step already equals 6 it leaves
the component entirely unchanged. -/
theorem c8_optimize_gate (c : Component) :
    (getStep c ≠ OPTIMIZE_STEP →
      (optimizeComponent c).buildStep = some OPTIMIZE_STEP ∧
      (optimizeComponent c).trace = c.trace ++ [Hook.optimize]) ∧
    (getStep c = OPTIMIZE_STEP → optimizeComponent c = c) := by
  by_cases h : getStep c = OPTIMIZE_STEP
  · refine ⟨fun h6 => absurd h h6, fun _ => ?_⟩
    unfold optimizeComponent
    rw [if_neg (fun hne => hne h)]
  · refine ⟨fun _ => ?_, fun h6 => absurd h6 h⟩
    unfold optimizeComponent
    rw [if_pos h]
    exact ⟨rfl, rfl⟩

/-- C8, witness: at a disabled component with step 0 the gate fires (so
there is no enabled check) and persists step 6; at the same component
after optimize the step equals 6 and a second invocation is the
identity. -/
theorem c8_optimize_gate_witness :
    ((optimizeComponent disabledCmpt).buildStep = some OPTIMIZE_STEP ∧
     (optimizeComponent disabledCmpt).trace = disabledCmpt.trace ++ [Hook.optimize]) ∧
    optimizeComponent (optimizeComponent disabledCmpt) =
      optimizeComponent disabledCmpt :=
  ⟨(c8_optimize_gate disabledCmpt).1 (by decide),
   (c8_optimize_gate (optimizeComponent disabledCmpt)).2 (by decide)⟩

/-- C10: `getStep` returns 0 whenever the persisted `build_step`
attribute does not exist on the component's container. -/
theorem c10_getStep_missing_attr (c : Component) (h : c.buildStep = none) :
    getStep c = 0 := by
  simp [getStep, h]

/-- C10, witness: the freshly constructed component has no `build_step`
attribute and reads as step 0. -/
theorem c10_getStep_missing_attr_witness :
    freshCmpt.buildStep = none ∧ getStep freshCmpt = 0 :=
  ⟨rfl, c10_getStep_missing_attr freshCmpt rfl⟩

/-! ## Lemmas about the script resolution recursion -/

theorem getRigData_ok (w : World) (rigFile key : String)
    (d : String → Option RigValue)
    (hrf : rigFile ≠ "") (hd : w.fileData rigFile = some d) :
    getRigData w rigFile key = .ok (d key) := by
  simp [getRigData, hrf, hd]

theorem findScriptsAux_terminal (w : World) (fuel : Nat)
    (rigFile scriptType : String) (d : String → Option RigValue) (ps : List String)
    (hrf : rigFile ≠ "") (hd : w.fileData rigFile = some d)
    (hps : d scriptType = some (.listV ps))
    (hbase : d BASE_ARCHETYPE = none) :
    findScriptsAux w (fuel + 1) rigFile scriptType =
      .ok (localLevelScripts w rigFile ps) := by
  have h1 : getRigData w rigFile scriptType = .ok (some (.listV ps)) := by
    rw [getRigData_ok w rigFile scriptType d hrf hd, hps]
  have h2 : getRigData w rigFile BASE_ARCHETYPE = .ok none := by
    rw [getRigData_ok w rigFile BASE_ARCHETYPE d hrf hd, hbase]
  simp only [findScriptsAux]
  rw [h1, h2]
  simp [iterPaths]

theorem findScriptsAux_unknownBase (w : World) (fuel : Nat)
    (rigFile scriptType : String) (d : String → Option RigValue)
    (ps : List String) (b : String)
    (hrf : rigFile ≠ "") (hd : w.fileData rigFile = some d)
    (hps : d scriptType = some (.listV ps))
    (hbase : d BASE_ARCHETYPE = some (.strV b))
    (hbne : b ∉ getAvailableArchetypes w) :
    findScriptsAux w (fuel + 1) rigFile scriptType =
      .ok (localLevelScripts w rigFile ps) := by
  have h1 : getRigData w rigFile scriptType = .ok (some (.listV ps)) := by
    rw [getRigData_ok w rigFile scriptType d hrf hd, hps]
  have h2 : getRigData w rigFile BASE_ARCHETYPE = .ok (some (.strV b)) := by
    rw [getRigData_ok w rigFile BASE_ARCHETYPE d hrf hd, hbase]
  simp only [findScriptsAux]
  rw [h1, h2]
  simp only [iterPaths]
  rw [if_neg (fun hcon => hbne hcon.2)]

theorem findScriptsAux_link (w : World) (fuel : Nat)
    (rigFile scriptType : String) (d : String → Option RigValue)
    (ps : List String) (b arf : String) (rest : List String)
    (hrf : rigFile ≠ "") (hd : w.fileData rigFile = some d)
    (hps : d scriptType = some (.listV ps))
    (hbase : d BASE_ARCHETYPE = some (.strV b))
    (hbne : b ≠ "") (hbavail : b ∈ getAvailableArchetypes w)
    (hfind : findRigFile w (sepJoin w.archetypesPath b) = some arf)
    (hrest : findScriptsAux w fuel arf scriptType = .ok rest) :
    findScriptsAux w (fuel + 1) rigFile scriptType =
      .ok (localLevelScripts w rigFile ps ++ rest) := by
  have h1 : getRigData w rigFile scriptType = .ok (some (.listV ps)) := by
    rw [getRigData_ok w rigFile scriptType d hrf hd, hps]
  have h2 : getRigData w rigFile BASE_ARCHETYPE = .ok (some (.strV b)) := by
    rw [getRigData_ok w rigFile BASE_ARCHETYPE d hrf hd, hbase]
  simp only [findScriptsAux]
  rw [h1, h2]
  simp only [iterPaths]
  rw [if_pos ⟨hbne, hbavail⟩, hfind]
  simp [hrest]

/-! ## Claims about script resolution -/

/-- C2, counterexample: in the spec's scenario (rig declares
`scripts/pre` holding `a.py`, `b.py`; base archetype `biped` declares
`common/pre` holding `z.py`), `resolveScripts` does not return the
claimed list with within-level listing order preserved. -/
theorem c2_counterexample :
    getScriptList scenarioWorld 2 "/env/theRig.rig" PRE_SCRIPT ≠
      .ok ["/archetypes/biped/common/pre/z.py", "/env/scripts/pre/a.py",
           "/env/scripts/pre/b.py"] := by decide

/-- C2, amended: in that scenario `resolveScripts` returns the ancestor's
script first, but within each level the directory-listing order is
reversed (`b.py` before `a.py`), because the accumulated flat list is
reversed element-wise. -/
theorem c2_amended :
    getScriptList scenarioWorld 2 "/env/theRig.rig" PRE_SCRIPT =
      .ok ["/archetypes/biped/common/pre/z.py", "/env/scripts/pre/b.py",
           "/env/scripts/pre/a.py"] := by decide

/-- C4: for a three-level archetype chain A ← B ← C in which every level
declares scripts, `resolveScripts(C, phase)` is the concatenation of a
block holding exactly A's level scripts, then a block holding exactly B's,
then a block holding exactly C's (ancestor blocks before derived blocks);
the A block is exactly what resolving A alone returns, and each block is a
permutation (namely the reversal) of that level's scripts in resolution
order. -/
theorem c4_chain_blocks (w : World) (fuel : Nat) (scriptType : String)
    (rigC : String) (dC : String → Option RigValue) (cs : List String) (bB : String)
    (rigB : String) (dB : String → Option RigValue) (bs : List String) (bA : String)
    (rigA : String) (dA : String → Option RigValue) (as : List String)
    (hC : rigC ≠ "") (hdC : w.fileData rigC = some dC)
    (hCs : dC scriptType = some (.listV cs))
    (hCb : dC BASE_ARCHETYPE = some (.strV bB))
    (hBne : bB ≠ "") (hBav : bB ∈ getAvailableArchetypes w)
    (hBfind : findRigFile w (sepJoin w.archetypesPath bB) = some rigB)
    (hB : rigB ≠ "") (hdB : w.fileData rigB = some dB)
    (hBs : dB scriptType = some (.listV bs))
    (hBb : dB BASE_ARCHETYPE = some (.strV bA))
    (hAne : bA ≠ "") (hAav : bA ∈ getAvailableArchetypes w)
    (hAfind : findRigFile w (sepJoin w.archetypesPath bA) = some rigA)
    (hA : rigA ≠ "") (hdA : w.fileData rigA = some dA)
    (hAs : dA scriptType = some (.listV as))
    (hAb : dA BASE_ARCHETYPE = none) :
    getScriptList w (fuel + 3) rigC scriptType =
      .ok ((localLevelScripts w rigA as).reverse ++
           (localLevelScripts w rigB bs).reverse ++
           (localLevelScripts w rigC cs).reverse) ∧
    getScriptList w (fuel + 1) rigA scriptType =
      .ok ((localLevelScripts w rigA as).reverse) ∧
    ((localLevelScripts w rigA as).reverse).Perm (localLevelScripts w rigA as) ∧
    ((localLevelScripts w rigB bs).reverse).Perm (localLevelScripts w rigB bs) ∧
    ((localLevelScripts w rigC cs).reverse).Perm (localLevelScripts w rigC cs) := by
  have hAaux := findScriptsAux_terminal w fuel rigA scriptType dA as hA hdA hAs hAb
  have hBaux := findScriptsAux_link w (fuel + 1) rigB scriptType dB bs bA rigA
    (localLevelScripts w rigA as) hB hdB hBs hBb hAne hAav hAfind hAaux
  have hCaux := findScriptsAux_link w (fuel + 2) rigC scriptType dC cs bB rigB
    (localLevelScripts w rigB bs ++ localLevelScripts w rigA as)
    hC hdC hCs hCb hBne hBav hBfind hBaux
  refine ⟨?_, ?_, List.reverse_perm _, List.reverse_perm _, List.reverse_perm _⟩
  · unfold getScriptList
    rw [hCaux]
    simp [Except.map, List.reverse_append, List.append_assoc]
  · unfold getScriptList
    rw [hAaux]
    simp [Except.map]

/-- C4, witness: the three-level chain world — the resolved list is A's
block, then B's, then C's, with C's two scripts present (in reversed
listing order inside the block). -/
theorem c4_chain_blocks_witness :
    getScriptList chainWorld 3 "/rigs/dog.rig" PRE_SCRIPT =
      .ok ["/archetypes/biped/pre/a1.py", "/archetypes/quadruped/pre/b1.py",
           "/rigs/pre/c2.py", "/rigs/pre/c1.py"] :=
  ((c4_chain_blocks chainWorld 0 PRE_SCRIPT
      "/rigs/dog.rig" dogRigData ["pre"] "quadruped"
      "/archetypes/quadruped/quadruped.rig" quadrupedData ["pre"] "biped"
      "/archetypes/biped/biped.rig" bipedRootData ["pre"]
      (by decide) rfl rfl rfl (by decide) (by decide) (by decide)
      (by decide) rfl rfl rfl (by decide) (by decide) (by decide)
      (by decide) rfl rfl rfl).1).trans (by decide)

/-- C6: if rig B declares an empty script list for the requested phase
but its base archetype A declares scripts, `resolveScripts(B, phase)`
still returns exactly what resolving A returns — the empty level neither
truncates the chain nor raises. -/
theorem c6_empty_level (w : World) (fuel : Nat) (scriptType : String)
    (rigB : String) (dB : String → Option RigValue) (b : String)
    (arf : String) (dA : String → Option RigValue) (as : List String)
    (hB : rigB ≠ "") (hdB : w.fileData rigB = some dB)
    (hBs : dB scriptType = some (.listV []))
    (hBb : dB BASE_ARCHETYPE = some (.strV b))
    (hbne : b ≠ "") (hbav : b ∈ getAvailableArchetypes w)
    (hfind : findRigFile w (sepJoin w.archetypesPath b) = some arf)
    (hA : arf ≠ "") (hdA : w.fileData arf = some dA)
    (hAs : dA scriptType = some (.listV as))
    (hAb : dA BASE_ARCHETYPE = none) :
    getScriptList w (fuel + 2) rigB scriptType =
      getScriptList w (fuel + 1) arf scriptType ∧
    getScriptList w (fuel + 2) rigB scriptType =
      .ok ((localLevelScripts w arf as).reverse) := by
  have hAaux := findScriptsAux_terminal w fuel arf scriptType dA as hA hdA hAs hAb
  have hBaux := findScriptsAux_link w (fuel + 1) rigB scriptType dB [] b arf
    (localLevelScripts w arf as) hB hdB hBs hBb hbne hbav hfind hAaux
  have hempty : localLevelScripts w rigB ([] : List String) = [] := rfl
  constructor
  · unfold getScriptList
    rw [hAaux, hBaux, hempty]
    simp [Except.map]
  · unfold getScriptList
    rw [hBaux, hempty]
    simp [Except.map]

/-- C6, witness: the rig declaring `pre_script: []` with base `biped`
resolves to exactly the biped archetype's script. -/
theorem c6_empty_level_witness :
    getScriptList scenarioWorld 2 "/env/emptyRig.rig" PRE_SCRIPT =
      .ok ["/archetypes/biped/common/pre/z.py"] :=
  ((c6_empty_level scenarioWorld 0 PRE_SCRIPT
      "/env/emptyRig.rig" emptyRigData "biped"
      "/archetypes/biped/biped.rig" bipedData ["common/pre"]
      (by decide) rfl rfl rfl (by decide) (by decide) (by decide)
      (by decide) rfl rfl rfl).2).trans (by decide)

/-- C7: if a rig names a base archetype that is not in the discoverable
set, `resolveScripts` returns exactly the rig's own scripts without
raising — the recursion terminates silently. -/
theorem c7_unknown_archetype (w : World) (fuel : Nat) (scriptType : String)
    (rigFile : String) (d : String → Option RigValue) (ps : List String) (b : String)
    (hrf : rigFile ≠ "") (hd : w.fileData rigFile = some d)
    (hps : d scriptType = some (.listV ps))
    (hbase : d BASE_ARCHETYPE = some (.strV b))
    (hbne : b ∉ getAvailableArchetypes w) :
    getScriptList w (fuel + 1) rigFile scriptType =
      .ok ((localLevelScripts w rigFile ps).reverse) := by
  unfold getScriptList
  rw [findScriptsAux_unknownBase w fuel rigFile scriptType d ps b hrf hd hps hbase hbne]
  simp [Except.map]

/-- C7, witness: the rig whose base archetype `dragon` is not
discoverable resolves to its own two scripts only (no error). -/
theorem c7_unknown_archetype_witness :
    getScriptList scenarioWorld 1 "/env/orphanRig.rig" PRE_SCRIPT =
      .ok ["/env/scripts/pre/b.py", "/env/scripts/pre/a.py"] :=
  (c7_unknown_archetype scenarioWorld 0 PRE_SCRIPT
      "/env/orphanRig.rig" orphanRigData ["scripts/pre"] "dragon"
      (by decide) rfl rfl rfl (by decide)).trans (by decide)

/-! ## Claim about rig environment creation -/

theorem createRigEnviornment_no_invalid (w : World) (s t n nm : String) :
    (createRigEnviornment w s t n).2 ≠ .error (.invalidArchetype nm) := by
  unfold createRigEnviornment
  dsimp only
  cases hfe : findRigEntry (w.listing s) (pathJoin t n) with
  | none => simp [hfe]
  | some entry =>
    cases hfd : w.fileData (pathJoin s entry) with
    | none => simp [hfe, hfd]
    | some d => simp [hfe, hfd]

theorem removeScriptFolderContents_no_invalid (w : World)
    (newEnv rigName archetypePath : String) (d : String → Option RigValue)
    (st nm : String) :
    removeScriptFolderContents w newEnv rigName archetypePath d st ≠
      .error (.invalidArchetype nm) := by
  unfold removeScriptFolderContents
  dsimp only
  cases hdv : d st with
  | none => simp [hdv]
  | some v =>
    cases hip : iterPaths v with
    | nil => simp [hdv, hip]
    | cons rel rest => simp [hdv, hip]

/-- C9: creating a new rig environment from an archetype name that is not
discoverable fails immediately with the descriptive invalid-archetype
error, before any filesystem mutation (the returned mutation trace is
empty); for a discoverable archetype name the invalid-archetype error is
never raised. -/
theorem c9_newRigEnv_validation (w : World) (newEnv archetype rigName : String) :
    (archetype ∉ getAvailableArchetypes w →
      newRigEnviornmentFromArchetype w newEnv archetype rigName =
        ([], some (.invalidArchetype archetype))) ∧
    (archetype ∈ getAvailableArchetypes w →
      ∀ nm, (newRigEnviornmentFromArchetype w newEnv archetype rigName).2 ≠
        some (.invalidArchetype nm)) := by
  constructor
  · intro h
    unfold newRigEnviornmentFromArchetype
    rw [if_pos h]
  · intro h nm
    unfold newRigEnviornmentFromArchetype
    rw [if_neg (fun hn => hn h)]
    dsimp only
    cases hcr : createRigEnviornment w (pathJoin w.archetypesPath archetype)
        newEnv rigName with
    | mk ops r =>
      cases r with
      | error e =>
        have hno := createRigEnviornment_no_invalid w
          (pathJoin w.archetypesPath archetype) newEnv rigName nm
        rw [hcr] at hno
        simp only [hcr]
        simpa using hno
      | ok p =>
        cases p with
        | mk rigFile d =>
          simp only [hcr]
          cases hr1 : removeScriptFolderContents w newEnv rigName
              (pathJoin w.archetypesPath archetype)
              (fun k => if k = BASE_ARCHETYPE then some (.strV archetype) else d k)
              PRE_SCRIPT with
          | error e2 =>
            have hno := removeScriptFolderContents_no_invalid w newEnv rigName
              (pathJoin w.archetypesPath archetype)
              (fun k => if k = BASE_ARCHETYPE then some (.strV archetype) else d k)
              PRE_SCRIPT nm
            rw [hr1] at hno
            simp only [hr1]
            simpa using hno
          | ok pre =>
            cases hr2 : removeScriptFolderContents w newEnv rigName
                (pathJoin w.archetypesPath archetype)
                (fun k => if k = BASE_ARCHETYPE then some (.strV archetype) else d k)
                POST_SCRIPT with
            | error e3 =>
              have hno := removeScriptFolderContents_no_invalid w newEnv rigName
                (pathJoin w.archetypesPath archetype)
                (fun k => if k = BASE_ARCHETYPE then some (.strV archetype) else d k)
                POST_SCRIPT nm
              rw [hr2] at hno
              simp only [hr1, hr2]
              simpa using hno
            | ok post =>
              cases hr3 : removeScriptFolderContents w newEnv rigName
                  (pathJoin w.archetypesPath archetype)
                  (fun k => if k = BASE_ARCHETYPE then some (.strV archetype) else d k)
                  PUB_SCRIPT with
              | error e4 =>
                have hno := removeScriptFolderContents_no_invalid w newEnv rigName
                  (pathJoin w.archetypesPath archetype)
                  (fun k => if k = BASE_ARCHETYPE then some (.strV archetype) else d k)
                  PUB_SCRIPT nm
                rw [hr3] at hno
                simp only [hr1, hr2, hr3]
                simpa using hno
              | ok pub => simp only [hr1, hr2, hr3]; simp

/-- C9, witness: in the scenario world, `dragon` is not a discoverable
archetype, so environment creation fails with the descriptive error and
an empty mutation trace, while `biped` is discoverable and never produces
the invalid-archetype error. -/
theorem c9_newRigEnv_validation_witness :
    newRigEnviornmentFromArchetype scenarioWorld "/builds" "dragon" "rex" =
      ([], some (.invalidArchetype "dragon")) ∧
    (newRigEnviornmentFromArchetype scenarioWorld "/builds" "biped" "rex").2 ≠
      some (.invalidArchetype "biped") :=
  ⟨(c9_newRigEnv_validation scenarioWorld "/builds" "dragon" "rex").1 (by decide),
   (c9_newRigEnv_validation scenarioWorld "/builds" "biped" "rex").2 (by decide) "biped"⟩

end Rigamajig2
